import Mathlib

/-!
Verification of the fitnity-ai Convex backend (`convex/http.ts`, `convex/plans.ts`).

JSON values decoded from request bodies and AI responses are modelled by `JVal`
(JavaScript numbers are modelled as either NaN or an integer, which covers every
numeric value the validators distinguish). Property access, `typeof` tests,
truthiness and `parseInt` follow JavaScript semantics on this fragment.
-/

namespace Fitnity

/-- A JavaScript number as far as the validators distinguish them: NaN or an integer. -/
inductive JNum where
| nan : JNum
| int : Int → JNum
deriving DecidableEq, Repr

/-- A decoded JSON / JavaScript value. `undefined` models `undefined` (absent property). -/
inductive JVal where
| null : JVal
| undefined : JVal
| bool : Bool → JVal
| num : JNum → JVal
| str : String → JVal
| arr : List JVal → JVal
| obj : List (String × JVal) → JVal
deriving Repr

/-- `v === null`. -/
def isNull : JVal → Bool
| .null => true
| _ => false

/-- `typeof v === "object"` (true for `null`, arrays and plain objects). -/
def jsTypeofObject : JVal → Bool
| .null => true
| .arr _ => true
| .obj _ => true
| _ => false

/-- `typeof v === "string"`. -/
def jsTypeofString : JVal → Bool
| .str _ => true
| _ => false

/-- `typeof v === "number"` (NaN included). -/
def jsTypeofNumber : JVal → Bool
| .num _ => true
| _ => false

/-- `typeof v === "number" && !Number.isNaN(v)`. -/
def isRealNumber : JVal → Bool
| .num (.int _) => true
| _ => false

/-- `Array.isArray(v) && !v.some(d => typeof d !== "string")`. -/
def isStringArray : JVal → Bool
| .arr xs => xs.all jsTypeofString
| _ => false

/-- JavaScript truthiness. -/
def truthy : JVal → Bool
| .null => false
| .undefined => false
| .bool b => b
| .num .nan => false
| .num (.int n) => n != 0
| .str s => s != ""
| .arr _ => true
| .obj _ => true

/-- Property access `v.k`: `undefined` when the key is absent or `v` has no string keys. -/
def getField (v : JVal) (k : String) : JVal :=
match v with
| .obj fs => (fs.lookup k).getD .undefined
| _ => .undefined

/-- The `in` operator on an own property: `"k" in v`. -/
def hasField (v : JVal) (k : String) : Bool :=
match v with
| .obj fs => (fs.lookup k).isSome
| _ => false

/-- `v || null`. -/
def orNull (v : JVal) : JVal := if truthy v then v else .null

/-- `unwrapNode` from `convex/http.ts`: strip one `{node: ...}` envelope when the
`node` property holds a non-null object, otherwise return `obj || null`. -/
def unwrapNode (v : JVal) : JVal :=
if !(isNull v) && jsTypeofObject v && hasField v "node" then
  let candidate := getField v "node"
  if !(isNull candidate) && jsTypeofObject candidate then candidate
  else orNull v
else orNull v

/-- The typed payload produced by `assertPayloadShape` (interface GenerateProgramPayload). -/
structure GenerateProgramPayload where
  user_id : String
  age : JNum
  height : String
  weight : String
  injuries : String
  workout_days : List String
  fitness_goal : String
  fitness_level : String
  dietary_restrictions : List String
deriving DecidableEq, Repr

/-- String content of a value known to be a string. -/
def asStringD : JVal → String
| .str s => s
| _ => ""

/-- Numeric content of a value known to be a number. -/
def asNumD : JVal → JNum
| .num n => n
| _ => .nan

/-- String list content of a value known to be a string array. -/
def asStrListD : JVal → List String
| .arr xs => xs.map asStringD
| _ => []

/-- The record built by `assertPayloadShape` on success (the raw field values). -/
def mkPayloadFromFields (v : JVal) : GenerateProgramPayload :=
{ user_id := asStringD (getField v "user_id")
, age := asNumD (getField v "age")
, height := asStringD (getField v "height")
, weight := asStringD (getField v "weight")
, injuries := asStringD (getField v "injuries")
, workout_days := asStrListD (getField v "workout_days")
, fitness_goal := asStringD (getField v "fitness_goal")
, fitness_level := asStringD (getField v "fitness_level")
, dietary_restrictions := asStrListD (getField v "dietary_restrictions") }

/-- `assertPayloadShape` from `convex/http.ts`: nine type checks in fixed order,
returning the first failure's message or the typed payload. -/
def assertPayloadShape (v : JVal) : Except String GenerateProgramPayload :=
if isNull v || !(jsTypeofObject v) then
  .error "Payload is not an object."
else if !(jsTypeofString (getField v "user_id")) then
  .error "Missing or invalid \x27user_id\x27 (expected string)."
else if !(jsTypeofNumber (getField v "age")) then
  .error "Missing or invalid \x27age\x27 (expected number)."
else if !(jsTypeofString (getField v "height")) then
  .error "Missing or invalid \x27height\x27 (expected string)."
else if !(jsTypeofString (getField v "weight")) then
  .error "Missing or invalid \x27weight\x27 (expected string)."
else if !(jsTypeofString (getField v "injuries")) then
  .error "Missing or invalid \x27injuries\x27 (expected string)."
else if !(isStringArray (getField v "workout_days")) then
  .error "Missing or invalid \x27workout_days\x27 (expected string[])."
else if !(jsTypeofString (getField v "fitness_goal")) then
  .error "Missing or invalid \x27fitness_goal\x27 (expected string)."
else if !(jsTypeofString (getField v "fitness_level")) then
  .error "Missing or invalid \x27fitness_level\x27 (expected string)."
else if !(isStringArray (getField v "dietary_restrictions")) then
  .error "Missing or invalid \x27dietary_restrictions\x27 (expected string[])."
else
  .ok (mkPayloadFromFields v)

/-- The nine field checks of the request-shape contract, in the spec's fixed order:
field name, error message, and the type check applied to that field. -/
def payloadChecks : List (String × String × (JVal → Bool)) :=
[ ("user_id", "Missing or invalid \x27user_id\x27 (expected string).", jsTypeofString)
, ("age", "Missing or invalid \x27age\x27 (expected number).", jsTypeofNumber)
, ("height", "Missing or invalid \x27height\x27 (expected string).", jsTypeofString)
, ("weight", "Missing or invalid \x27weight\x27 (expected string).", jsTypeofString)
, ("injuries", "Missing or invalid \x27injuries\x27 (expected string).", jsTypeofString)
, ("workout_days", "Missing or invalid \x27workout_days\x27 (expected string[]).", isStringArray)
, ("fitness_goal", "Missing or invalid \x27fitness_goal\x27 (expected string).", jsTypeofString)
, ("fitness_level", "Missing or invalid \x27fitness_level\x27 (expected string).", jsTypeofString)
, ("dietary_restrictions", "Missing or invalid \x27dietary_restrictions\x27 (expected string[]).", isStringArray) ]

/-- Modelled from the spec's contract wording for the request validator: scan the
fixed check order and report exactly the first failing field's error, else the
fully-typed payload ("any single failure aborts and reports only the first"). -/
def specPayloadFirstFailure (v : JVal) : Except String GenerateProgramPayload :=
if isNull v || !(jsTypeofObject v) then
  .error "Payload is not an object."
else
  match payloadChecks.find? (fun c => !(c.2.2 (getField v c.1))) with
  | some c => .error c.2.1
  | none => .ok (mkPayloadFromFields v)

/-- Index path `exercises[i]`. -/
def exPath (i : Nat) : String := "exercises[" ++ toString i ++ "]"

/-- Index path `exercises[i].routines[j]`. -/
def rPath (i j : Nat) : String := exPath i ++ ".routines[" ++ toString j ++ "]"

/-- The inner `for (let j ...)` loop of `assertWorkoutShape`: check each routine of
exercise `i`, returning the first error found (index `j` counts from the second
argument). -/
def checkRoutines (i : Nat) : Nat → List JVal → Option String
| _, [] => none
| j, r :: rest =>
  if isNull r || !(jsTypeofObject r) then
    some ("Workout plan ‘" ++ rPath i j ++ "’ is not an object.")
  else if !(jsTypeofString (getField r "name")) then
    some ("Workout plan ‘" ++ rPath i j ++ ".name’ must be string.")
  else if !(isRealNumber (getField r "sets")) then
    some ("Workout plan ‘" ++ rPath i j ++ ".sets’ must be number.")
  else if !(isRealNumber (getField r "reps")) then
    some ("Workout plan ‘" ++ rPath i j ++ ".reps’ must be number.")
  else checkRoutines i (j + 1) rest

/-- The outer `for (let i ...)` loop of `assertWorkoutShape`. -/
def checkExercises : Nat → List JVal → Option String
| _, [] => none
| i, ex :: rest =>
  if isNull ex || !(jsTypeofObject ex) then
    some ("Workout plan ‘" ++ exPath i ++ "’ is not an object.")
  else if !(jsTypeofString (getField ex "day")) then
    some ("Workout plan ‘" ++ exPath i ++ ".day’ must be string.")
  else
    match getField ex "routines" with
    | .arr rs =>
      match checkRoutines i 0 rs with
      | some e => some e
      | none => checkExercises (i + 1) rest
    | _ => some ("Workout plan ‘" ++ exPath i ++ ".routines’ must be an array.")

/-- `assertWorkoutShape` from `convex/http.ts`: on success it returns the raw value
itself (`raw as WorkoutPlanShape`). -/
def assertWorkoutShape (v : JVal) : Except String JVal :=
if isNull v || !(jsTypeofObject v) then .error "Workout plan is not an object."
else if !(isStringArray (getField v "schedule")) then
  .error "Workout plan ‘schedule’ must be string[]."
else
  match getField v "exercises" with
  | .arr exs =>
    match checkExercises 0 exs with
    | some e => .error e
    | none => .ok v
  | _ => .error "Workout plan ‘exercises’ must be an array."

/-- Index path `meals[i]`. -/
def mealPath (i : Nat) : String := "meals[" ++ toString i ++ "]"

/-- The `for (let i ...)` loop of `assertDietShape`. -/
def checkMeals : Nat → List JVal → Option String
| _, [] => none
| i, m :: rest =>
  if isNull m || !(jsTypeofObject m) then
    some ("Diet plan ‘" ++ mealPath i ++ "’ is not an object.")
  else if !(jsTypeofString (getField m "name")) then
    some ("Diet plan ‘" ++ mealPath i ++ ".name’ must be string.")
  else if !(isStringArray (getField m "foods")) then
    some ("Diet plan ‘" ++ mealPath i ++ ".foods’ must be string[].")
  else checkMeals (i + 1) rest

/-- `assertDietShape` from `convex/http.ts`: on success returns the raw value itself. -/
def assertDietShape (v : JVal) : Except String JVal :=
if isNull v || !(jsTypeofObject v) then .error "Diet plan is not an object."
else if !(isRealNumber (getField v "dailyCalories")) then
  .error "Diet plan ‘dailyCalories’ must be a number."
else
  match getField v "meals" with
  | .arr ms =>
    match checkMeals 0 ms with
    | some e => .error e
    | none => .ok v
  | _ => .error "Diet plan ‘meals’ must be an array."

/-- Longest leading run of decimal digits, `none` when there is none. -/
def leadingDigits (cs : List Char) : Option Nat :=
let ds := cs.takeWhile Char.isDigit
if ds.isEmpty then none
else some (ds.foldl (fun a c => a * 10 + (c.toNat - 48)) 0)

/-- Longest leading run of hexadecimal digits, `none` when there is none. -/
def leadingHexDigits (cs : List Char) : Option Nat :=
let ds := cs.takeWhile (fun c => c.isDigit || (97 ≤ c.toLower.toNat && c.toLower.toNat ≤ 102))
if ds.isEmpty then none
else some (ds.foldl (fun a c => a * 16 + (if c.isDigit then c.toNat - 48 else c.toLower.toNat - 87)) 0)

/-- Digits of `parseInt` after sign handling: a `0x`/`0X` run is read as hex. -/
def parseIntCore (cs : List Char) : Option Int :=
match cs with
| '0' :: 'x' :: rest => (leadingHexDigits rest).map Int.ofNat
| '0' :: 'X' :: rest => (leadingHexDigits rest).map Int.ofNat
| _ => (leadingDigits cs).map Int.ofNat

/-- JavaScript `parseInt(s)` (radix 10/16 autodetect): skip leading whitespace,
optional sign, longest digit run; `none` models the NaN result. -/
def parseIntStr (s : String) : Option Int :=
match s.toList.dropWhile Char.isWhitespace with
| '-' :: rest => (parseIntCore rest).map (fun n => -n)
| '+' :: rest => parseIntCore rest
| cs => parseIntCore cs

mutual
/-- JavaScript `String(v)` coercion on the modelled fragment. -/
def jsToString : JVal → String
| .null => "null"
| .undefined => "undefined"
| .bool b => if b then "true" else "false"
| .num .nan => "NaN"
| .num (.int n) => toString n
| .str s => s
| .arr xs => jsToStringList xs
| .obj _ => "[object Object]"

/-- `Array.prototype.toString`: elements joined with commas, null/undefined as empty. -/
def jsToStringList : List JVal → String
| [] => ""
| [x] =>
  match x with
  | .null => ""
  | .undefined => ""
  | x => jsToString x
| x :: rest =>
  (match x with
   | .null => ""
   | .undefined => ""
   | x => jsToString x) ++ "," ++ jsToStringList rest
end

/-- `parseInt(v)`: JavaScript coerces the argument to a string first. -/
def parseIntJS (v : JVal) : Option Int := parseIntStr (jsToString v)

/-- `parseInt(v) || fallback`: the fallback replaces a NaN or zero parse result. -/
def parseOr (v : JVal) (fallback : Int) : Int :=
match parseIntJS v with
| none => fallback
| some k => if k = 0 then fallback else k

/-- The per-routine normalization inside `validateWorkoutPlan`: keep numeric
`sets`/`reps` as they are, otherwise `parseInt(x) || 1` resp. `parseInt(x) || 10`. -/
def normRoutine (r : JVal) : JVal :=
JVal.obj
  [ ("name", getField r "name")
  , ("sets",
     match getField r "sets" with
     | .num n => .num n
     | v => .num (.int (parseOr v 1)))
  , ("reps",
     match getField r "reps" with
     | .num n => .num n
     | v => .num (.int (parseOr v 10))) ]

/-- The value as a list when it is an array; `none` models the TypeError a `.map`
call on a non-array would throw. -/
def asArr : JVal → Option (List JVal)
| .arr xs => some xs
| _ => none

/-- `.map` over a list of fallible steps, propagating the first failure (the thrown
exception of the underlying JavaScript callback). -/
def mapOption {α β : Type} (f : α → Option β) : List α → Option (List β)
| [] => some []
| x :: rest =>
  match f x with
  | none => none
  | some y =>
    match mapOption f rest with
    | none => none
    | some ys => some (y :: ys)

/-- The per-exercise mapping inside `validateWorkoutPlan`: `day` passes through,
routines are normalized; `none` models the TypeError of `.map` on a non-array. -/
def normExercise (ex : JVal) : Option JVal :=
match asArr (getField ex "routines") with
| none => none
| some rs =>
  some (JVal.obj [("day", getField ex "day"), ("routines", JVal.arr (rs.map normRoutine))])

/-- `validateWorkoutPlan` from `convex/http.ts`: `schedule` passes through unchanged,
each routine is normalized; `none` models a thrown TypeError. -/
def validateWorkoutPlan (plan : JVal) : Option JVal :=
match asArr (getField plan "exercises") with
| none => none
| some exs =>
  match mapOption normExercise exs with
  | none => none
  | some exs2 =>
    some (JVal.obj [("schedule", getField plan "schedule"), ("exercises", JVal.arr exs2)])

/-- The per-meal projection inside `validateDietPlan`. -/
def normMeal (m : JVal) : JVal :=
JVal.obj [("name", getField m "name"), ("foods", getField m "foods")]

/-- `validateDietPlan` from `convex/http.ts`: identity projection onto
`dailyCalories` and each meal's `name`/`foods`. -/
def validateDietPlan (plan : JVal) : Option JVal :=
match asArr (getField plan "meals") with
| none => none
| some meals =>
  some (JVal.obj
    [ ("dailyCalories", getField plan "dailyCalories")
    , ("meals", JVal.arr (meals.map normMeal)) ])

/-- Whether a validator returned its success case. -/
def isOkE {ε α : Type} : Except ε α → Bool
| .ok _ => true
| .error _ => false

/-- Outcome of one AI call followed by `JSON.parse`: `failure` models a thrown
error (invocation or parse), `success` carries the parsed JSON value. -/
inductive AIResult where
| failure : AIResult
| success : JVal → AIResult
deriving Repr

/-- Observable outcome of the `/vapi/generate-program` handler: HTTP status, the
body's `success` flag, and whether the `createPlan` mutation was invoked. -/
structure GenResult where
  status : Nat
  success : Bool
  createPlanCalled : Bool
deriving DecidableEq, Repr

/-- The `/vapi/generate-program` handler pipeline from `convex/http.ts`, with the
two AI calls and the persistence step abstracted as parameters: unwrap envelope,
validate request shape (400 on failure), parse + shape-check + normalize the
workout plan then the diet plan (500 on any failure), persist, respond 200.
A `none` from a normalizer models a TypeError reaching the top-level catch. -/
def generateProgram (rawBody : JVal) (wAI dAI : AIResult) (persistOk : Bool) : GenResult :=
let unwrapped := orNull (unwrapNode rawBody)
match assertPayloadShape unwrapped with
| .error _ => { status := 400, success := false, createPlanCalled := false }
| .ok _ =>
  match wAI with
  | .failure => { status := 500, success := false, createPlanCalled := false }
  | .success wRaw =>
    match assertWorkoutShape wRaw with
    | .error _ => { status := 500, success := false, createPlanCalled := false }
    | .ok wChecked =>
      match validateWorkoutPlan wChecked with
      | none => { status := 500, success := false, createPlanCalled := false }
      | some _ =>
        match dAI with
        | .failure => { status := 500, success := false, createPlanCalled := false }
        | .success dRaw =>
          match assertDietShape dRaw with
          | .error _ => { status := 500, success := false, createPlanCalled := false }
          | .ok dChecked =>
            match validateDietPlan dChecked with
            | none => { status := 500, success := false, createPlanCalled := false }
            | some _ =>
              if persistOk then { status := 200, success := true, createPlanCalled := true }
              else { status := 500, success := false, createPlanCalled := true }

/-- A persisted plan row of the `plans` table (`_id` modelled as the insertion
counter; `_creationTime` order equals insertion order). -/
structure Plan where
  id : Nat
  userId : String
  name : String
  workoutPlan : JVal
  dietPlan : JVal
  isActive : Bool

/-- The `plans` table: rows in insertion order (oldest first) plus the next id. -/
structure DB where
  plans : List Plan
  nextId : Nat

/-- Arguments of the `createPlan` mutation (`convex/plans.ts`). -/
structure CreatePlanArgs where
  userId : String
  name : String
  workoutPlan : JVal
  dietPlan : JVal
  isActive : Bool

/-- The row inserted by `createPlan`. -/
def newPlanRec (db : DB) (args : CreatePlanArgs) : Plan :=
{ id := db.nextId, userId := args.userId, name := args.name
, workoutPlan := args.workoutPlan, dietPlan := args.dietPlan, isActive := args.isActive }

/-- Step 1 of `createPlan` applied to one row: the rows collected by the
`by_user_id` index query filtered on `isActive` are patched to `isActive = false`,
all other rows are untouched. -/
def deactivateFor (u : String) (p : Plan) : Plan :=
if p.userId == u && p.isActive then { p with isActive := false } else p

/-- `createPlan` from `convex/plans.ts`: patch every active plan of the user to
`isActive = false`, then insert the new plan and return its id. -/
def createPlan (db : DB) (args : CreatePlanArgs) : DB × Nat :=
({ plans := db.plans.map (deactivateFor args.userId) ++ [newPlanRec db args]
 , nextId := db.nextId + 1 }, db.nextId)

/-- `getUserPlans` from `convex/plans.ts`: the user's plans, newest first
(`order("desc")` on the insertion-ordered index). -/
def getUserPlans (db : DB) (userId : String) : List Plan :=
(db.plans.filter (fun p => p.userId == userId)).reverse

/-- Ids of the user's currently active plans, in storage order. -/
def activeIdsFor (db : DB) (u : String) : List Nat :=
(db.plans.filter (fun p => p.userId == u && p.isActive)).map Plan.id

/-- The three svix signature headers (`headers.get` returns null when absent). -/
structure SvixHeaders where
  svixId : Option String
  svixSignature : Option String
  svixTimestamp : Option String

/-- A database mutation invoked by the webhook handler. -/
inductive UserMutation where
| syncUser : String → String → String → String → UserMutation
| updateUser : String → String → String → String → UserMutation
deriving DecidableEq, Repr

/-- `email_addresses` entry of a Clerk event. -/
structure EmailEntry where
  email_address : String
deriving DecidableEq, Repr

/-- The `data` carried by a Clerk `user.*` event. -/
structure ClerkUserData where
  id : String
  first_name : Option String
  last_name : Option String
  image_url : String
  email_addresses : List EmailEntry
deriving DecidableEq, Repr

/-- A verified Clerk webhook event. -/
structure ClerkEvent where
  type : String
  data : ClerkUserData
deriving DecidableEq, Repr

/-- Outcome of the `/clerk-webhook` handler: an HTTP response together with the
mutations that were invoked, or an exception escaping the handler uncaught. -/
inductive WebhookOutcome where
| response : Nat → List UserMutation → WebhookOutcome
| uncaught : List UserMutation → WebhookOutcome
deriving DecidableEq, Repr

/-- `!header` in the handler's guard: a missing or empty header is falsy. -/
def headerFalsy : Option String → Bool
| none => true
| some s => s == ""

/-- `${first_name || ""} ${last_name || ""}`.trim(). -/
def displayName (fn ln : Option String) : String :=
((fn.getD "") ++ " " ++ (ln.getD "")).trim

/-- The `/clerk-webhook` handler from `convex/http.ts`. Signature verification is
abstracted as `verified` (`none`: body read or verification threw, caught → 400).
`mutationOk` abstracts whether `ctx.runMutation` succeeds. On a `user.created` or
`user.updated` event, `email_addresses[0].email_address` is read outside any
try/catch: on an empty list this throws, and the exception escapes the handler. -/
def clerkWebhook (h : SvixHeaders) (verified : Option ClerkEvent) (mutationOk : Bool) :
    WebhookOutcome :=
if headerFalsy h.svixId || headerFalsy h.svixSignature || headerFalsy h.svixTimestamp then
  .response 400 []
else
  match verified with
  | none => .response 400 []
  | some evt =>
    if evt.type == "user.created" then
      match evt.data.email_addresses with
      | [] => .uncaught []
      | e :: _ =>
        let call := UserMutation.syncUser e.email_address
          (displayName evt.data.first_name evt.data.last_name) evt.data.image_url evt.data.id
        if mutationOk then .response 200 [call] else .response 500 [call]
    else if evt.type == "user.updated" then
      match evt.data.email_addresses with
      | [] => .uncaught []
      | e :: _ =>
        let call := UserMutation.updateUser evt.data.id e.email_address
          (displayName evt.data.first_name evt.data.last_name) evt.data.image_url
        if mutationOk then .response 200 [call] else .response 500 [call]
    else .response 200 []

/-! ### Concrete sample data used by witnesses and counterexamples -/

/-- An empty `plans` table. -/
def emptyDB : DB := { plans := [], nextId := 0 }

/-- First sample `createPlan` call, active. -/
def planArgs1 : CreatePlanArgs :=
{ userId := "u", name := "p1", workoutPlan := .null, dietPlan := .null, isActive := true }

/-- Second sample `createPlan` call for the same user, active. -/
def planArgs2 : CreatePlanArgs :=
{ userId := "u", name := "p2", workoutPlan := .null, dietPlan := .null, isActive := true }

/-- Third sample `createPlan` call for the same user, active. -/
def planArgs3 : CreatePlanArgs :=
{ userId := "u", name := "p3", workoutPlan := .null, dietPlan := .null, isActive := true }

/-- A request body with all nine `GenerateProgramPayload` fields well-typed. -/
def validBody : JVal :=
JVal.obj
  [ ("user_id", .str "u1"), ("age", .num (.int 30)), ("height", .str "180cm")
  , ("weight", .str "80kg"), ("injuries", .str "none")
  , ("workout_days", .arr [.str "Mon", .str "Wed"])
  , ("fitness_goal", .str "bulk"), ("fitness_level", .str "mid")
  , ("dietary_restrictions", .arr []) ]

/-- The typed payload extracted from `validBody`. -/
def validBodyRec : GenerateProgramPayload :=
{ user_id := "u1", age := .int 30, height := "180cm", weight := "80kg"
, injuries := "none", workout_days := ["Mon", "Wed"], fitness_goal := "bulk"
, fitness_level := "mid", dietary_restrictions := [] }

/-- A fully valid request body that additionally carries a `node` property holding
an (empty) object. -/
def nodeCollidingBody : JVal :=
JVal.obj
  [ ("user_id", .str "u1"), ("age", .num (.int 30)), ("height", .str "180cm")
  , ("weight", .str "80kg"), ("injuries", .str "none")
  , ("workout_days", .arr [.str "Mon", .str "Wed"])
  , ("fitness_goal", .str "bulk"), ("fitness_level", .str "mid")
  , ("dietary_restrictions", .arr []), ("node", JVal.obj []) ]

/-- Sample routine with string-typed `sets: "3"` and unparsable `reps: "abc"`. -/
def routineStr3 : JVal :=
JVal.obj [("name", .str "Push Up"), ("sets", .str "3"), ("reps", .str "abc")]

/-- Sample routine with unparsable `sets: "abc"`. -/
def routineStrAbc : JVal :=
JVal.obj [("name", .str "Push Up"), ("sets", .str "abc"), ("reps", .str "12")]

/-- A routine that passes all four checks of the inner `assertWorkoutShape` loop. -/
def validRoutine (r : JVal) : Bool :=
!(isNull r) && jsTypeofObject r && jsTypeofString (getField r "name")
  && isRealNumber (getField r "sets") && isRealNumber (getField r "reps")

/-- All routines of a list pass the inner loop. -/
def routinesOk : List JVal → Bool
| [] => true
| r :: rest => validRoutine r && routinesOk rest

/-- An exercise that passes the outer `assertWorkoutShape` loop completely. -/
def validExercise (ex : JVal) : Bool :=
!(isNull ex) && jsTypeofObject ex && jsTypeofString (getField ex "day")
  && (match getField ex "routines" with
      | .arr rs => routinesOk rs
      | _ => false)

/-- Sample workout plan whose only flaw is a string `reps` at
`exercises[1].routines[1]`. -/
def workoutBadReps : JVal :=
JVal.obj
  [ ("schedule", .arr [.str "Mon", .str "Tue"])
  , ("exercises", .arr
      [ JVal.obj [("day", .str "Mon"), ("routines", .arr
          [ JVal.obj [("name", .str "a"), ("sets", .num (.int 3)), ("reps", .num (.int 10))] ])]
      , JVal.obj [("day", .str "Tue"), ("routines", .arr
          [ JVal.obj [("name", .str "b"), ("sets", .num (.int 2)), ("reps", .num (.int 8))]
          , JVal.obj [("name", .str "c"), ("sets", .num (.int 4)), ("reps", .str "abc")] ])]
      ]) ]

/-- Sample webhook headers with `svix-signature` absent. -/
def headersNoSig : SvixHeaders :=
{ svixId := some "id1", svixSignature := none, svixTimestamp := some "ts1" }

/-- Sample webhook headers with all three svix headers present. -/
def headersOk : SvixHeaders :=
{ svixId := some "id1", svixSignature := some "sig1", svixTimestamp := some "ts1" }

/-- Sample verified `user.created` event whose `email_addresses` list is empty. -/
def evtNoEmail : ClerkEvent :=
{ type := "user.created"
, data := { id := "c1", first_name := some "A", last_name := none
          , image_url := "img", email_addresses := [] } }

/-! ### Plan store lemmas -/

lemma deactivateFor_userId (u : String) (p : Plan) :
    (deactivateFor u p).userId = p.userId := by
  unfold deactivateFor; split <;> rfl

lemma deactivateFor_id (u : String) (p : Plan) :
    (deactivateFor u p).id = p.id := by
  unfold deactivateFor; split <;> rfl

lemma deactivateFor_inactive (u : String) (p : Plan)
    (h : ((deactivateFor u p).userId == u) = true) :
    (deactivateFor u p).isActive = false := by
  unfold deactivateFor at h ⊢
  cases hc : (p.userId == u && p.isActive) with
  | true => simp [hc]
  | false =>
    simp only [hc, Bool.false_eq_true, if_false] at h ⊢
    cases hp : p.isActive
    · rfl
    · rw [h, hp] at hc; simp at hc

lemma activePred_deactivateFor (u : String) (p : Plan) :
    ((deactivateFor u p).userId == u && (deactivateFor u p).isActive) = false := by
  cases hu : ((deactivateFor u p).userId == u)
  · simp [hu]
  · simp [hu, deactivateFor_inactive u p hu]

lemma filter_active_map_deactivateFor (u : String) (xs : List Plan) :
    (xs.map (deactivateFor u)).filter (fun p => p.userId == u && p.isActive) = [] := by
  induction xs with
  | nil => rfl
  | cons p xs ih => simp [List.filter_cons, activePred_deactivateFor, ih]

lemma mem_map_deactivateFor_inactive (u : String) (xs : List Plan) (p : Plan)
    (hm : p ∈ xs.map (deactivateFor u)) (hu : p.userId = u) :
    p.isActive = false := by
  rcases List.mem_map.mp hm with ⟨q, _, rfl⟩
  exact deactivateFor_inactive u q (by simp [hu])

lemma activeIdsFor_createPlan (db : DB) (args : CreatePlanArgs) :
    activeIdsFor (createPlan db args).1 args.userId
      = if args.isActive then [db.nextId] else [] := by
  unfold activeIdsFor createPlan
  simp only [List.filter_append, filter_active_map_deactivateFor, List.nil_append]
  cases h : args.isActive <;> simp [List.filter_cons, newPlanRec, h]

/-- C1: after any `createPlan` call, at most one plan of the user is active; with
`isActive = true` the new plan is the unique active one; every active plan of the
user in the new state is the newly inserted one; and after two sequential active
`createPlan` calls for the same user exactly the second plan is active while the
first now carries `isActive = false`. -/
theorem createPlan_at_most_one_active (db : DB) (args : CreatePlanArgs) :
    (activeIdsFor (createPlan db args).1 args.userId).length ≤ 1
    ∧ (args.isActive = true →
        activeIdsFor (createPlan db args).1 args.userId = [(createPlan db args).2])
    ∧ (∀ p ∈ (createPlan db args).1.plans,
        p.userId = args.userId → p.isActive = true → p.id = (createPlan db args).2)
    ∧ (∀ args2 : CreatePlanArgs, args.isActive = true → args2.isActive = true →
        args2.userId = args.userId →
        activeIdsFor (createPlan (createPlan db args).1 args2).1 args.userId
          = [(createPlan (createPlan db args).1 args2).2]
        ∧ { newPlanRec db args with isActive := false }
            ∈ (createPlan (createPlan db args).1 args2).1.plans) := by
  refine ⟨?_, ?_, ?_, ?_⟩
  · rw [activeIdsFor_createPlan]; cases h : args.isActive <;> simp
  · intro h; rw [activeIdsFor_createPlan, h]; rfl
  · intro p hp hu ha
    have hp' : p ∈ db.plans.map (deactivateFor args.userId) ++ [newPlanRec db args] := hp
    rcases List.mem_append.mp hp' with hm | hnew
    · have hf := mem_map_deactivateFor_inactive args.userId db.plans p hm hu
      rw [ha] at hf; exact Bool.noConfusion hf
    · have hq : p = newPlanRec db args := by simpa using hnew
      simp [hq, newPlanRec, createPlan]
  · intro args2 h1 h2 hu
    constructor
    · have hgen := activeIdsFor_createPlan (createPlan db args).1 args2
      rw [hu] at hgen
      rw [hgen, h2]
      rfl
    · have hmem : newPlanRec db args ∈ (createPlan db args).1.plans := by
        simp [createPlan]
      have himg := List.mem_map_of_mem (deactivateFor args2.userId) hmem
      have heq : deactivateFor args2.userId (newPlanRec db args)
          = { newPlanRec db args with isActive := false } := by
        unfold deactivateFor newPlanRec
        simp [hu, h1]
      rw [heq] at himg
      show _ ∈ ((createPlan db args).1.plans).map (deactivateFor args2.userId)
        ++ [newPlanRec (createPlan db args).1 args2]
      exact List.mem_append.mpr (Or.inl himg)

/-- C1 witness: two sequential active `createPlan` calls on an empty table leave
exactly the second plan active and the first flipped to `isActive = false`. -/
theorem createPlan_at_most_one_active_witness :
    activeIdsFor (createPlan (createPlan emptyDB planArgs1).1 planArgs2).1 "u"
      = [(createPlan (createPlan emptyDB planArgs1).1 planArgs2).2]
    ∧ { newPlanRec emptyDB planArgs1 with isActive := false }
        ∈ (createPlan (createPlan emptyDB planArgs1).1 planArgs2).1.plans :=
  (createPlan_at_most_one_active emptyDB planArgs1).2.2.2 planArgs2 rfl rfl rfl

lemma filter_userId_map_deactivateFor (u w : String) (xs : List Plan) :
    ((xs.map (deactivateFor w)).filter (fun p => p.userId == u)).map Plan.id
      = (xs.filter (fun p => p.userId == u)).map Plan.id := by
  induction xs with
  | nil => rfl
  | cons p xs ih =>
    simp only [List.map_cons, List.filter_cons, deactivateFor_userId]
    cases hp : (p.userId == u)
    · simpa [hp] using ih
    · simp [hp, deactivateFor_id, ih]

lemma getUserPlans_ids_createPlan (db : DB) (args : CreatePlanArgs) (u : String)
    (hu : args.userId = u) :
    (getUserPlans (createPlan db args).1 u).map Plan.id
      = db.nextId :: (getUserPlans db u).map Plan.id := by
  unfold getUserPlans createPlan
  simp only [List.filter_append, List.reverse_append]
  rw [show ([newPlanRec db args].filter (fun p => p.userId == u)) = [newPlanRec db args]
      from by simp [List.filter_cons, newPlanRec, hu]]
  simp only [List.reverse_cons, List.reverse_nil, List.nil_append, List.cons_append,
    List.map_cons]
  congr 1
  rw [List.map_reverse, List.map_reverse]
  exact congrArg List.reverse (filter_userId_map_deactivateFor u args.userId db.plans)

/-- C8: `getUserPlans` returns exactly the persisted plans of the user, and after
three sequential insertions for the same user the returned ids are the third,
second and first insertion (newest first) followed by the user's earlier plans. -/
theorem getUserPlans_newest_first (db : DB) (u : String) (a1 a2 a3 : CreatePlanArgs)
    (h1 : a1.userId = u) (h2 : a2.userId = u) (h3 : a3.userId = u) :
    (∀ p, p ∈ getUserPlans db u ↔ p ∈ db.plans ∧ p.userId = u)
    ∧ (getUserPlans (createPlan (createPlan (createPlan db a1).1 a2).1 a3).1 u).map Plan.id
        = (createPlan (createPlan (createPlan db a1).1 a2).1 a3).2
          :: (createPlan (createPlan db a1).1 a2).2
          :: (createPlan db a1).2
          :: (getUserPlans db u).map Plan.id := by
  constructor
  · intro p
    unfold getUserPlans
    simp [List.mem_reverse, List.mem_filter]
  · rw [getUserPlans_ids_createPlan _ a3 u h3, getUserPlans_ids_createPlan _ a2 u h2,
      getUserPlans_ids_createPlan db a1 u h1]
    rfl

/-- C8 witness: three sequential insertions for user `"u"` on an empty table come
back with ids `[2, 1, 0]`, i.e. strictly newest first. -/
theorem getUserPlans_newest_first_witness :
    (getUserPlans
        (createPlan (createPlan (createPlan emptyDB planArgs1).1 planArgs2).1 planArgs3).1
        "u").map Plan.id = [2, 1, 0] :=
  ((getUserPlans_newest_first emptyDB "u" planArgs1 planArgs2 planArgs3 rfl rfl rfl).2).trans
    rfl

/-- C7: when any of the three svix headers is absent the webhook handler responds
with status 400 and invokes no database mutation. -/
theorem clerkWebhook_missing_header_400 (h : SvixHeaders)
    (hmiss : h.svixId = none ∨ h.svixSignature = none ∨ h.svixTimestamp = none)
    (verified : Option ClerkEvent) (mutationOk : Bool) :
    clerkWebhook h verified mutationOk = .response 400 [] := by
  unfold clerkWebhook
  have hguard : (headerFalsy h.svixId || headerFalsy h.svixSignature
      || headerFalsy h.svixTimestamp) = true := by
    rcases hmiss with h1 | h1 | h1 <;> simp [h1, headerFalsy]
  simp [hguard]

/-- C7 witness: a request missing `svix-signature` gets a 400 and no mutation,
whatever the body verification or mutation outcome would have been. -/
theorem clerkWebhook_missing_header_400_witness :
    clerkWebhook headersNoSig none true = .response 400 [] :=
  clerkWebhook_missing_header_400 headersNoSig (Or.inr (Or.inl rfl)) none true

/-- C9: on a verified `user.created` or `user.updated` event carrying an empty
`email_addresses` list, the unguarded `email_addresses[0].email_address` access
throws before any mutation is attempted, and the exception escapes the handler
uncaught instead of yielding a 400 or 500 response. -/
theorem clerkWebhook_empty_emails_uncaught (h : SvixHeaders) (evt : ClerkEvent)
    (mutationOk : Bool)
    (hid : headerFalsy h.svixId = false)
    (hsig : headerFalsy h.svixSignature = false)
    (hts : headerFalsy h.svixTimestamp = false)
    (htype : evt.type = "user.created" ∨ evt.type = "user.updated")
    (hemails : evt.data.email_addresses = []) :
    clerkWebhook h (some evt) mutationOk = .uncaught []
    ∧ ∀ s calls, clerkWebhook h (some evt) mutationOk ≠ .response s calls := by
  have hmain : clerkWebhook h (some evt) mutationOk = .uncaught [] := by
    unfold clerkWebhook
    rcases htype with ht | ht <;> simp [hid, hsig, hts, ht, hemails]
  refine ⟨hmain, ?_⟩
  intro s calls hc
  rw [hmain] at hc
  exact WebhookOutcome.noConfusion hc

/-- C9 witness: a verified `user.created` event with no email addresses escapes the
handler uncaught. -/
theorem clerkWebhook_empty_emails_uncaught_witness :
    clerkWebhook headersOk (some evtNoEmail) true = .uncaught [] :=
  (clerkWebhook_empty_emails_uncaught headersOk evtNoEmail true rfl rfl rfl
    (Or.inl rfl) rfl).1

/-- C2: `assertPayloadShape` implements the spec's contract exactly: on a non-object
it reports that, otherwise it returns the typed payload when all nine fields pass
their type checks, and on any failure it reports exactly the first failing field of
the fixed check order, with no partial result. -/
theorem assertPayloadShape_first_failure (v : JVal) :
    assertPayloadShape v = specPayloadFirstFailure v := by
  unfold assertPayloadShape specPayloadFirstFailure payloadChecks
  cases h0 : (isNull v || !jsTypeofObject v)
  case true => simp [h0]
  case false =>
  simp only [h0, Bool.false_eq_true, if_false]
  cases h1 : jsTypeofString (getField v "user_id")
  · simp [List.find?, h1]
  · cases h2 : jsTypeofNumber (getField v "age")
    · simp [List.find?, h1, h2]
    · cases h3 : jsTypeofString (getField v "height")
      · simp [List.find?, h1, h2, h3]
      · cases h4 : jsTypeofString (getField v "weight")
        · simp [List.find?, h1, h2, h3, h4]
        · cases h5 : jsTypeofString (getField v "injuries")
          · simp [List.find?, h1, h2, h3, h4, h5]
          · cases h6 : isStringArray (getField v "workout_days")
            · simp [List.find?, h1, h2, h3, h4, h5, h6]
            · cases h7 : jsTypeofString (getField v "fitness_goal")
              · simp [List.find?, h1, h2, h3, h4, h5, h6, h7]
              · cases h8 : jsTypeofString (getField v "fitness_level")
                · simp [List.find?, h1, h2, h3, h4, h5, h6, h7, h8]
                · cases h9 : isStringArray (getField v "dietary_restrictions")
                  · simp [List.find?, h1, h2, h3, h4, h5, h6, h7, h8, h9]
                  · simp [List.find?, h1, h2, h3, h4, h5, h6, h7, h8, h9]

/-! ### Normalizer lemmas -/

lemma normRoutine_sets_num (r : JVal) (n : JNum) (h : getField r "sets" = .num n) :
    getField (normRoutine r) "sets" = .num n := by
  unfold normRoutine
  rw [h]
  rfl

lemma normRoutine_reps_num (r : JVal) (n : JNum) (h : getField r "reps" = .num n) :
    getField (normRoutine r) "reps" = .num n := by
  unfold normRoutine
  rw [h]
  rfl

lemma normRoutine_sets_default (r : JVal)
    (h : jsTypeofNumber (getField r "sets") = false) :
    getField (normRoutine r) "sets" = .num (.int (parseOr (getField r "sets") 1)) := by
  cases hx : getField r "sets"
  case num => rw [hx] at h; simp [jsTypeofNumber] at h
  all_goals unfold normRoutine
  all_goals rw [hx]
  all_goals rfl

lemma normRoutine_reps_default (r : JVal)
    (h : jsTypeofNumber (getField r "reps") = false) :
    getField (normRoutine r) "reps" = .num (.int (parseOr (getField r "reps") 10)) := by
  cases hx : getField r "reps"
  case num => rw [hx] at h; simp [jsTypeofNumber] at h
  all_goals unfold normRoutine
  all_goals rw [hx]
  all_goals rfl

/-- C4: the workout normalizer keeps already-numeric `sets`/`reps` unchanged, and
otherwise integer-parses the value, substituting the fallback (1 for `sets`, 10 for
`reps`) when the parse fails or yields a falsy result; `schedule` passes through
unchanged; concretely `sets: "3"` becomes numeric 3, `sets: "abc"` becomes 1 and
`reps: "abc"` becomes 10. -/
theorem validateWorkoutPlan_normalizes (plan res r : JVal) :
    (validateWorkoutPlan plan = some res →
      getField res "schedule" = getField plan "schedule")
    ∧ (∀ n : JNum, getField r "sets" = .num n → getField (normRoutine r) "sets" = .num n)
    ∧ (∀ n : JNum, getField r "reps" = .num n → getField (normRoutine r) "reps" = .num n)
    ∧ (jsTypeofNumber (getField r "sets") = false →
        (parseIntJS (getField r "sets") = none →
          getField (normRoutine r) "sets" = .num (.int 1))
        ∧ (parseIntJS (getField r "sets") = some 0 →
          getField (normRoutine r) "sets" = .num (.int 1))
        ∧ (∀ k : Int, k ≠ 0 → parseIntJS (getField r "sets") = some k →
          getField (normRoutine r) "sets" = .num (.int k)))
    ∧ (jsTypeofNumber (getField r "reps") = false →
        (parseIntJS (getField r "reps") = none →
          getField (normRoutine r) "reps" = .num (.int 10))
        ∧ (parseIntJS (getField r "reps") = some 0 →
          getField (normRoutine r) "reps" = .num (.int 10))
        ∧ (∀ k : Int, k ≠ 0 → parseIntJS (getField r "reps") = some k →
          getField (normRoutine r) "reps" = .num (.int k)))
    ∧ getField (normRoutine routineStr3) "sets" = .num (.int 3)
    ∧ getField (normRoutine routineStrAbc) "sets" = .num (.int 1)
    ∧ getField (normRoutine routineStr3) "reps" = .num (.int 10) := by
  refine ⟨?_, normRoutine_sets_num r, normRoutine_reps_num r, ?_, ?_, rfl, rfl, rfl⟩
  · intro h
    unfold validateWorkoutPlan at h
    split at h
    · exact Option.noConfusion h
    · split at h
      · exact Option.noConfusion h
      · rw [← Option.some.inj h]
        rfl
  · intro hnum
    refine ⟨?_, ?_, ?_⟩
    · intro hp
      rw [normRoutine_sets_default r hnum]
      simp [parseOr, hp]
    · intro hp
      rw [normRoutine_sets_default r hnum]
      simp [parseOr, hp]
    · intro k hk hp
      rw [normRoutine_sets_default r hnum]
      simp [parseOr, hp, hk]
  · intro hnum
    refine ⟨?_, ?_, ?_⟩
    · intro hp
      rw [normRoutine_reps_default r hnum]
      simp [parseOr, hp]
    · intro hp
      rw [normRoutine_reps_default r hnum]
      simp [parseOr, hp]
    · intro k hk hp
      rw [normRoutine_reps_default r hnum]
      simp [parseOr, hp, hk]

/-- C4 witness: evaluating the normalizer on the sample routines gives numeric 3
for `sets: "3"`, fallback 1 for `sets: "abc"` and fallback 10 for `reps: "abc"`,
and a kept numeric value stays unchanged. -/
theorem validateWorkoutPlan_normalizes_witness :
    getField (normRoutine routineStr3) "sets" = .num (.int 3)
    ∧ getField (normRoutine routineStrAbc) "sets" = .num (.int 1)
    ∧ getField (normRoutine routineStr3) "reps" = .num (.int 10)
    ∧ getField (normRoutine (JVal.obj [("sets", .num (.int 5))])) "sets" = .num (.int 5) :=
  ⟨(validateWorkoutPlan_normalizes JVal.null JVal.null routineStr3).2.2.2.2.2.1,
   (validateWorkoutPlan_normalizes JVal.null JVal.null routineStrAbc).2.2.2.2.2.2.1,
   (validateWorkoutPlan_normalizes JVal.null JVal.null routineStr3).2.2.2.2.2.2.2,
   (validateWorkoutPlan_normalizes JVal.null JVal.null
      (JVal.obj [("sets", .num (.int 5))])).2.1 (.int 5) rfl⟩

/-- C10: `unwrapNode` strips exactly one envelope level and only when `node` holds a
non-null object: `{node: {node: P}}` unwraps once to `{node: P}`; an input whose
`node` property holds a non-object value passes through unchanged, `node` field
included; and every falsy input (null, 0, "", false) becomes null, on which
validation fails with the not-an-object error. -/
theorem unwrapNode_single_level (P v : JVal) (fs : List (String × JVal)) :
    unwrapNode (JVal.obj [("node", JVal.obj [("node", P)])]) = JVal.obj [("node", P)]
    ∧ (List.lookup "node" fs = some v → jsTypeofObject v = false →
        unwrapNode (JVal.obj fs) = JVal.obj fs)
    ∧ unwrapNode JVal.null = JVal.null
    ∧ unwrapNode (JVal.num (.int 0)) = JVal.null
    ∧ unwrapNode (JVal.str "") = JVal.null
    ∧ unwrapNode (JVal.bool false) = JVal.null
    ∧ assertPayloadShape JVal.null = .error "Payload is not an object." := by
  refine ⟨rfl, ?_, rfl, rfl, rfl, rfl, rfl⟩
  intro hl ht
  have hget : getField (JVal.obj fs) "node" = v := by simp [getField, hl]
  have hhas : hasField (JVal.obj fs) "node" = true := by simp [hasField, hl]
  have hcond : (!(isNull (JVal.obj fs)) && jsTypeofObject (JVal.obj fs)
      && hasField (JVal.obj fs) "node") = true := by rw [hhas]; rfl
  have hinner : (!(isNull v) && jsTypeofObject v) = false := by rw [ht]; simp
  unfold unwrapNode
  simp [hcond, hget, hinner, orNull, truthy]

/-- C10 witness: a `node` property holding a string is left in place, and a doubly
wrapped body is unwrapped exactly once. -/
theorem unwrapNode_single_level_witness :
    unwrapNode (JVal.obj [("node", JVal.str "hi")]) = JVal.obj [("node", JVal.str "hi")]
    ∧ unwrapNode (JVal.obj [("node", JVal.obj [("node", JVal.str "p")])])
        = JVal.obj [("node", JVal.str "p")] :=
  ⟨(unwrapNode_single_level (JVal.str "p") (JVal.str "hi") [("node", JVal.str "hi")]).2.1
      rfl rfl,
   (unwrapNode_single_level (JVal.str "p") (JVal.str "hi") [("node", JVal.str "hi")]).1⟩

/-- C5 counterexample: `nodeCollidingBody` validates as a GenerationRequest, yet the
wrapped body `{node: nodeCollidingBody}` and the body itself are processed
differently — the wrapped form validates while the unwrapped form is unwrapped into
its own `node` field and fails validation. -/
theorem wrapped_processing_differs :
    assertPayloadShape nodeCollidingBody = .ok (mkPayloadFromFields nodeCollidingBody)
    ∧ assertPayloadShape (orNull (unwrapNode (JVal.obj [("node", nodeCollidingBody)])))
        = .ok (mkPayloadFromFields nodeCollidingBody)
    ∧ assertPayloadShape (orNull (unwrapNode nodeCollidingBody))
        = .error "Missing or invalid \x27user_id\x27 (expected string)." :=
  ⟨rfl, rfl, rfl⟩

/-- C5 (amended): for every request body `B` that validates as a GenerationRequest
and whose own `node` property (if any) does not hold a non-null object, the body
`{node: B}` is processed identically to `B`: envelope unwrap followed by shape
validation yields the same result, namely `B`'s typed payload. -/
theorem wrapped_body_processed_identically (B : JVal) (p : GenerateProgramPayload)
    (hok : assertPayloadShape B = .ok p)
    (hnode : (!(isNull (getField B "node")) && jsTypeofObject (getField B "node"))
      = false) :
    assertPayloadShape (orNull (unwrapNode (JVal.obj [("node", B)])))
      = assertPayloadShape (orNull (unwrapNode B))
    ∧ assertPayloadShape (orNull (unwrapNode (JVal.obj [("node", B)]))) = .ok p := by
  have hB : (isNull B || !(jsTypeofObject B)) = false := by
    cases hb : (isNull B || !(jsTypeofObject B))
    · rfl
    · exfalso
      unfold assertPayloadShape at hok
      rw [hb] at hok
      simp at hok
  have h1 : isNull B = false := by
    cases h : isNull B
    · rfl
    · rw [h] at hB; simp at hB
  have h2 : jsTypeofObject B = true := by
    cases h : jsTypeofObject B
    · rw [h] at hB; simp at hB
    · rfl
  have htr : truthy B = true := by
    cases B <;> simp_all [isNull, jsTypeofObject, truthy]
  have hUB : unwrapNode B = B := by
    unfold unwrapNode
    cases hf : hasField B "node" <;> simp [hf, h1, h2, hnode, orNull, htr]
  have hUW : unwrapNode (JVal.obj [("node", B)]) = B := by
    have hget : getField (JVal.obj [("node", B)]) "node" = B := rfl
    have hcond : (!(isNull (JVal.obj [("node", B)]))
        && jsTypeofObject (JVal.obj [("node", B)])
        && hasField (JVal.obj [("node", B)]) "node") = true := rfl
    have hinner : (!(isNull B) && jsTypeofObject B) = true := by rw [h1, h2]; rfl
    unfold unwrapNode
    simp [hcond, hget, hinner]
  have hor : orNull B = B := by simp [orNull, htr]
  rw [hUW, hUB, hor]
  exact ⟨rfl, hok⟩

/-- C5 witness: wrapping the fully valid sample body (which has no `node` property)
yields exactly the same typed payload as the unwrapped body. -/
theorem wrapped_body_processed_identically_witness :
    assertPayloadShape (orNull (unwrapNode (JVal.obj [("node", validBody)])))
      = .ok validBodyRec :=
  (wrapped_body_processed_identically validBody validBodyRec rfl rfl).2

/-! ### Workout shape validator lemmas -/

lemma checkRoutines_cons_valid (i j : Nat) (r : JVal) (rest : List JVal)
    (h : validRoutine r = true) :
    checkRoutines i j (r :: rest) = checkRoutines i (j + 1) rest := by
  simp only [validRoutine, Bool.and_eq_true, Bool.not_eq_true'] at h
  obtain ⟨⟨⟨⟨hn, ho⟩, hname⟩, hsets⟩, hreps⟩ := h
  rw [checkRoutines]
  simp only [hn, ho, hname, hsets, hreps, Bool.or_false, Bool.not_true, Bool.false_eq_true,
    if_false]

lemma checkRoutines_none (i : Nat) :
    ∀ (rs : List JVal) (j : Nat), routinesOk rs = true → checkRoutines i j rs = none := by
  intro rs
  induction rs with
  | nil => intro j _; rfl
  | cons r rest ih =>
    intro j h
    simp only [routinesOk, Bool.and_eq_true] at h
    rw [checkRoutines_cons_valid i j r rest h.1]
    exact ih (j + 1) h.2

lemma checkRoutines_reps_err (i : Nat) :
    ∀ (rs : List JVal) (j0 j : Nat), j < rs.length →
    (∀ k, k < j → validRoutine (rs.getD k JVal.null) = true) →
    isNull (rs.getD j JVal.null) = false →
    jsTypeofObject (rs.getD j JVal.null) = true →
    jsTypeofString (getField (rs.getD j JVal.null) "name") = true →
    isRealNumber (getField (rs.getD j JVal.null) "sets") = true →
    isRealNumber (getField (rs.getD j JVal.null) "reps") = false →
    checkRoutines i j0 rs
      = some ("Workout plan ‘" ++ rPath i (j0 + j) ++ ".reps’ must be number.") := by
  intro rs
  induction rs with
  | nil => intro j0 j hj; exact absurd hj (by simp)
  | cons r rest ih =>
    intro j0 j hj hpre hn ho hname hsets hreps
    cases j with
    | zero =>
      simp only [List.getD_cons_zero] at hn ho hname hsets hreps
      rw [checkRoutines]
      simp [hn, ho, hname, hsets, hreps]
    | succ jp =>
      have hv : validRoutine r = true := by simpa using hpre 0 (Nat.succ_pos jp)
      rw [checkRoutines_cons_valid i j0 r rest hv]
      have harith : j0 + (jp + 1) = j0 + 1 + jp := by omega
      rw [harith]
      apply ih (j0 + 1) jp (by simpa using hj)
      · intro k hk
        simpa using hpre (k + 1) (by omega)
      · simpa using hn
      · simpa using ho
      · simpa using hname
      · simpa using hsets
      · simpa using hreps

lemma checkExercises_cons_valid (i : Nat) (ex : JVal) (rest : List JVal)
    (h : validExercise ex = true) :
    checkExercises i (ex :: rest) = checkExercises (i + 1) rest := by
  simp only [validExercise, Bool.and_eq_true, Bool.not_eq_true'] at h
  obtain ⟨⟨⟨hn, ho⟩, hday⟩, hro⟩ := h
  rw [checkExercises]
  simp only [hn, ho, hday, Bool.or_false, Bool.not_true, Bool.false_eq_true, if_false]
  cases hx : getField ex "routines"
  case arr rs =>
    rw [hx] at hro
    show (match checkRoutines i 0 rs with
          | some e => some e
          | none => checkExercises (i + 1) rest) = checkExercises (i + 1) rest
    rw [checkRoutines_none i rs 0 (by simpa using hro)]
  all_goals rw [hx] at hro
  all_goals simp at hro

lemma checkExercises_reps_err :
    ∀ (exs : List JVal) (i0 i : Nat) (rs : List JVal) (j : Nat),
    i < exs.length →
    (∀ k, k < i → validExercise (exs.getD k JVal.null) = true) →
    isNull (exs.getD i JVal.null) = false →
    jsTypeofObject (exs.getD i JVal.null) = true →
    jsTypeofString (getField (exs.getD i JVal.null) "day") = true →
    getField (exs.getD i JVal.null) "routines" = .arr rs →
    j < rs.length →
    (∀ k, k < j → validRoutine (rs.getD k JVal.null) = true) →
    isNull (rs.getD j JVal.null) = false →
    jsTypeofObject (rs.getD j JVal.null) = true →
    jsTypeofString (getField (rs.getD j JVal.null) "name") = true →
    isRealNumber (getField (rs.getD j JVal.null) "sets") = true →
    isRealNumber (getField (rs.getD j JVal.null) "reps") = false →
    checkExercises i0 exs
      = some ("Workout plan ‘" ++ rPath (i0 + i) j ++ ".reps’ must be number.") := by
  intro exs
  induction exs with
  | nil => intro i0 i rs j hi; exact absurd hi (by simp)
  | cons ex rest ih =>
    intro i0 i rs j hi hpre hn ho hday hrs hj hprej hrn hro hrname hrsets hrreps
    cases i with
    | zero =>
      simp only [List.getD_cons_zero] at hn ho hday hrs
      rw [checkExercises]
      simp only [hn, ho, hday, Bool.or_false, Bool.not_true, Bool.false_eq_true, if_false]
      rw [hrs]
      show (match checkRoutines i0 0 rs with
            | some e => some e
            | none => checkExercises (i0 + 1) rest)
          = some ("Workout plan ‘" ++ rPath (i0 + 0) j ++ ".reps’ must be number.")
      rw [checkRoutines_reps_err i0 rs 0 j hj hprej hrn hro hrname hrsets hrreps]
      simp
    | succ ip =>
      have hv : validExercise ex = true := by simpa using hpre 0 (Nat.succ_pos ip)
      rw [checkExercises_cons_valid i0 ex rest hv]
      have harith : i0 + (ip + 1) = i0 + 1 + ip := by omega
      rw [harith]
      apply ih (i0 + 1) ip rs j (by simpa using hi)
      · intro k hk
        simpa using hpre (k + 1) (by omega)
      · simpa using hn
      · simpa using ho
      · simpa using hday
      · simpa using hrs
      · exact hj
      · exact hprej
      · exact hrn
      · exact hro
      · exact hrname
      · exact hrsets
      · exact hrreps

lemma reps_err_contains_path (i j : Nat) :
    "Workout plan ‘" ++ rPath i j ++ ".reps’ must be number."
      = "Workout plan ‘"
        ++ ("exercises[" ++ toString i ++ "].routines[" ++ toString j ++ "].reps")
        ++ "’ must be number." := by
  unfold rPath exPath
  simp only [String.append_assoc]
  congr 2

/-- C6: for every workout plan JSON whose fields are well-formed up to
`exercises[i].routines[j]` but whose `reps` there is not a (non-NaN) number, the
shape validator reports an error whose message embeds the exact index path
`exercises[i].routines[j].reps`. -/
theorem assertWorkoutShape_reps_path (plan : JVal) (exs rs : List JVal) (i j : Nat)
    (hobj : (isNull plan || !(jsTypeofObject plan)) = false)
    (hsched : isStringArray (getField plan "schedule") = true)
    (hexs : getField plan "exercises" = .arr exs)
    (hi : i < exs.length)
    (hpre : ∀ k, k < i → validExercise (exs.getD k JVal.null) = true)
    (hn : isNull (exs.getD i JVal.null) = false)
    (ho : jsTypeofObject (exs.getD i JVal.null) = true)
    (hday : jsTypeofString (getField (exs.getD i JVal.null) "day") = true)
    (hrs : getField (exs.getD i JVal.null) "routines" = .arr rs)
    (hj : j < rs.length)
    (hprej : ∀ k, k < j → validRoutine (rs.getD k JVal.null) = true)
    (hrn : isNull (rs.getD j JVal.null) = false)
    (hro : jsTypeofObject (rs.getD j JVal.null) = true)
    (hrname : jsTypeofString (getField (rs.getD j JVal.null) "name") = true)
    (hrsets : isRealNumber (getField (rs.getD j JVal.null) "sets") = true)
    (hrreps : isRealNumber (getField (rs.getD j JVal.null) "reps") = false) :
    assertWorkoutShape plan
      = .error ("Workout plan ‘"
          ++ ("exercises[" ++ toString i ++ "].routines[" ++ toString j ++ "].reps")
          ++ "’ must be number.") := by
  unfold assertWorkoutShape
  simp only [hobj, hsched, Bool.not_true, Bool.false_eq_true, if_false, hexs]
  rw [checkExercises_reps_err exs 0 i rs j hi hpre hn ho hday hrs hj hprej hrn hro
    hrname hrsets hrreps]
  rw [show (0 : Nat) + i = i from by omega]
  rw [reps_err_contains_path]

/-- C6 witness: on the sample plan whose only flaw is `reps: "abc"` at
`exercises[1].routines[1]`, the validator's error embeds the path
`exercises[1].routines[1].reps`. -/
theorem assertWorkoutShape_reps_path_witness :
    assertWorkoutShape workoutBadReps
      = .error ("Workout plan ‘"
          ++ ("exercises[" ++ toString 1 ++ "].routines[" ++ toString 1 ++ "].reps")
          ++ "’ must be number.") :=
  assertWorkoutShape_reps_path workoutBadReps
    [ JVal.obj [("day", .str "Mon"), ("routines", .arr
        [ JVal.obj [("name", .str "a"), ("sets", .num (.int 3)), ("reps", .num (.int 10))] ])]
    , JVal.obj [("day", .str "Tue"), ("routines", .arr
        [ JVal.obj [("name", .str "b"), ("sets", .num (.int 2)), ("reps", .num (.int 8))]
        , JVal.obj [("name", .str "c"), ("sets", .num (.int 4)), ("reps", .str "abc")] ])] ]
    [ JVal.obj [("name", .str "b"), ("sets", .num (.int 2)), ("reps", .num (.int 8))]
    , JVal.obj [("name", .str "c"), ("sets", .num (.int 4)), ("reps", .str "abc")] ]
    1 1 rfl rfl rfl (by decide) (by decide) rfl rfl rfl rfl (by decide) (by decide)
    rfl rfl rfl rfl rfl

/-! ### Pipeline lemmas -/

lemma checkExercises_none_normExercise :
    ∀ (exs : List JVal) (i : Nat), checkExercises i exs = none →
    ∀ ex ∈ exs, (normExercise ex).isSome = true := by
  intro exs
  induction exs with
  | nil => intro i _ ex hex; cases hex
  | cons e rest ih =>
    intro i h ex hex
    rw [checkExercises] at h
    split at h
    · exact Option.noConfusion h
    · split at h
      · exact Option.noConfusion h
      · split at h
        case _ rs heq =>
          split at h
          · exact Option.noConfusion h
          · rcases List.mem_cons.mp hex with rfl | hmem
            · unfold normExercise
              rw [heq]
              rfl
            · exact ih (i + 1) h ex hmem
        case _ => exact Option.noConfusion h

lemma mapOption_isSome {α β : Type} (f : α → Option β) :
    ∀ xs : List α, (∀ x ∈ xs, (f x).isSome = true) → (mapOption f xs).isSome = true := by
  intro xs
  induction xs with
  | nil => intro _; rfl
  | cons x rest ih =>
    intro h
    have hx := h x (List.mem_cons_self x rest)
    rcases Option.isSome_iff_exists.mp hx with ⟨y, hy⟩
    have hr := ih (fun z hz => h z (List.mem_cons_of_mem x hz))
    rcases Option.isSome_iff_exists.mp hr with ⟨ys, hys⟩
    unfold mapOption
    rw [hy, hys]
    rfl

lemma assertWorkoutShape_ok_validate (v w : JVal) (h : assertWorkoutShape v = .ok w) :
    (validateWorkoutPlan w).isSome = true := by
  unfold assertWorkoutShape at h
  split at h
  · exact Except.noConfusion h
  · split at h
    · exact Except.noConfusion h
    · split at h
      case _ exs heq =>
        split at h
        case _ e _ => exact Except.noConfusion h
        case _ hnone =>
          have hw : v = w := Except.ok.inj h
          subst hw
          unfold validateWorkoutPlan
          rw [heq]
          have hall := checkExercises_none_normExercise exs 0 hnone
          have hsome := mapOption_isSome normExercise exs hall
          rcases Option.isSome_iff_exists.mp hsome with ⟨exs2, hexs2⟩
          show (match mapOption normExercise exs with
                | none => none
                | some exs2 => some (JVal.obj
                    [("schedule", getField v "schedule"),
                     ("exercises", JVal.arr exs2)])).isSome = true
          rw [hexs2]
          rfl
      case _ => exact Except.noConfusion h

lemma assertDietShape_ok_validate (v w : JVal) (h : assertDietShape v = .ok w) :
    (validateDietPlan w).isSome = true := by
  unfold assertDietShape at h
  split at h
  · exact Except.noConfusion h
  · split at h
    · exact Except.noConfusion h
    · split at h
      case _ ms heq =>
        split at h
        · exact Except.noConfusion h
        · have hw : v = w := Except.ok.inj h
          subst hw
          unfold validateDietPlan
          rw [heq]
          rfl
      case _ => exact Except.noConfusion h

/-- C3: the `createPlan` mutation is invoked exactly when the request payload
validates and both AI responses parse and pass their shape validators; on any
AI, parse or shape failure the pipeline returns an error response (non-200,
`success: false`) without ever calling `createPlan`. -/
theorem generateProgram_no_partial_writes (body : JVal) (wAI dAI : AIResult)
    (persistOk : Bool) :
    ((generateProgram body wAI dAI persistOk).createPlanCalled = true ↔
      (isOkE (assertPayloadShape (orNull (unwrapNode body))) = true
       ∧ (∃ w, wAI = .success w ∧ isOkE (assertWorkoutShape w) = true)
       ∧ (∃ d, dAI = .success d ∧ isOkE (assertDietShape d) = true)))
    ∧ ((generateProgram body wAI dAI persistOk).createPlanCalled = false →
        (generateProgram body wAI dAI persistOk).success = false
        ∧ (generateProgram body wAI dAI persistOk).status ≠ 200) := by
  unfold generateProgram
  cases hp : assertPayloadShape (orNull (unwrapNode body)) with
  | error e => simp [isOkE, hp]
  | ok p =>
    cases wAI with
    | failure => simp [isOkE, hp]
    | success w =>
      cases hw : assertWorkoutShape w with
      | error e => simp [isOkE, hp, hw]
      | ok wv =>
        have hws := assertWorkoutShape_ok_validate w wv hw
        rcases Option.isSome_iff_exists.mp hws with ⟨wp, hwp⟩
        cases dAI with
        | failure => simp [isOkE, hp, hw, hwp]
        | success d =>
          cases hd : assertDietShape d with
          | error e => simp [isOkE, hp, hw, hwp, hd]
          | ok dv =>
            have hds := assertDietShape_ok_validate d dv hd
            rcases Option.isSome_iff_exists.mp hds with ⟨dp, hdp⟩
            cases persistOk <;> simp [isOkE, hp, hw, hwp, hd, hdp]

/-- C3 witness: with an invalid body and failing AI calls nothing is persisted and
the response is an error. -/
theorem generateProgram_no_partial_writes_witness :
    (generateProgram JVal.null AIResult.failure AIResult.failure true).createPlanCalled
      = false
    ∧ (generateProgram JVal.null AIResult.failure AIResult.failure true).success = false
    ∧ (generateProgram JVal.null AIResult.failure AIResult.failure true).status ≠ 200 := by
  have h :=
    (generateProgram_no_partial_writes JVal.null AIResult.failure AIResult.failure true).2
      (by rfl)
  exact ⟨rfl, h.1, h.2⟩

end Fitnity
